import Mathlib

/-!
# vppagent-icmp-responder-nse: request/close handler, bridge-domain setup, address base

Shallow embedding of

* `controlplane/api/connection/mechanisms/memif/constants.go` (the MEMIF vocabulary), and
* `examples/cmd/vppagent-icmp-responder-nse/service.go`
  (`vppagentNetworkService`, `Request`, `Close`, `CreateBridgeDomain`, `ip2int`, `New`).

Conventions of the embedding.

* A Go pointer result `*T` is an `Option T` (`none` is `nil`); a Go `error` is an
  `Option Err` (`none` is the nil error).  A Go multi-value return is a pair.
* A method with receiver `ns *vppagentNetworkService` is a function on a `World`: the
  receiver's fields together with the state of the external dataplane agent.  It returns
  an `Outcome`: the returned values, the world after the call, and the list of calls the
  body issued to its collaborators, in program order.
* Everything the two files call but do not define (`CompleteConnection`,
  `CreateVppInterface`, `Reset`, the monitor's `UpdateConnection` and `DeleteConnection`,
  `grpc.Dial`, the data-change client's `Put` and `Del`, `net.ParseIP`, the constant
  `NetworkServiceName`) is a field of the environment `Env`; theorems quantify over it.
* A connection value stands for the `*connection.Connection` a call passes around;
  service.go hands it on and never reads or writes through it.  The `context.Context`
  arguments are not represented: `Request` only forwards its context and `Close` ignores
  it.
* `logrus` logging and the embedded `sync.RWMutex` have no counterpart: the embedding is
  sequential and logging does not influence control flow.
* `uint32` values are natural numbers reduced modulo `2 ^ 32`; a run-time panic (slice
  index out of range) is `none`.
-/

set_option linter.dupNamespace false

/-! ## memif/constants.go -/

namespace memif

/-- Mechanism string. -/
def Mechanism : String := "MEMIF"

/-- NetNsInodeKey - netns inode mechanism property key. -/
def NetNsInodeKey : String := "netnsInode"

/-- InterfaceNameKey - interface name mechanism property key. -/
def InterfaceNameKey : String := "name"

/-- SocketFilename - socket file mechanism property key. -/
def SocketFilename : String := "socketfile"

/-- Master - NSMgr name. -/
def Master : String := "master"

/-- Slave - NSMgr name. -/
def Slave : String := "slave"

/-- Workspace - NSM workspace location mechanism property key. -/
def Workspace : String := "workspace"

end memif

/-! ## Messages built by service.go -/

namespace l2

/-- The fields of `l2.BridgeDomains_BridgeDomain` that `CreateBridgeDomain` writes in its
composite literal.  The message's remaining fields are left out of the literal and so hold
their zero values; they are not represented. -/
structure BridgeDomains_BridgeDomain where
  Name : String
  Flood : Bool
  UnknownUnicastFlood : Bool
  Forward : Bool
  Learn : Bool
  ArpTermination : Bool
  MacAge : Nat
  deriving DecidableEq, Repr

/-- The message `l2.BridgeDomains`: a list of bridge domains. -/
structure BridgeDomains where
  BridgeDomains : List BridgeDomains_BridgeDomain
  deriving DecidableEq, Repr

end l2

namespace rpc

/-- The field of `rpc.DataRequest` that `CreateBridgeDomain` writes; every other field of
the request is left at its zero value by the literal and is not represented. -/
structure DataRequest where
  BridgeDomains : List l2.BridgeDomains_BridgeDomain
  deriving DecidableEq, Repr

end rpc

namespace empty

/-- The message `empty.Empty` has no fields. -/
structure Empty where
  deriving DecidableEq, Repr

end empty

/-! ## The service, its world and its collaborators -/

/-- The struct `vppagentNetworkService` (the embedded `sync.RWMutex` apart).  `Mon` is the
state of the monitor the field `monitorConnectionServer` refers to. -/
structure vppagentNetworkService (Mon : Type) where
  networkService : String
  nextIP : Nat
  monitorConnectionServer : Mon
  vppAgentEndpoint : String
  baseDir : String
  bridgeDomainName : String
  deriving DecidableEq, Repr

/-- What a method of the service runs against: the receiver and the state `D` of the
dataplane agent behind `vppAgentEndpoint`. -/
structure World (Mon D : Type) where
  ns : vppagentNetworkService Mon
  agent : D
  deriving DecidableEq, Repr

/-- A Go byte. -/
abbrev byte : Type := Fin 256

/-- The type `net.IP`, a byte slice; `none` is the nil slice. -/
abbrev IP : Type := Option (List byte)

/-- One call issued by the code of service.go to a collaborator.  `Conn` is the type of
connection messages and `Req` the type of request messages. -/
inductive Call (Conn Req : Type) where
  | CompleteConnection (request : Req)
  | CreateVppInterface (nseConnection : Option Conn) (baseDir : String)
  | UpdateConnection (conn : Option Conn)
  | DeleteConnection (conn : Option Conn)
  | Dial (target : String)
  | Put (dataChange : rpc.DataRequest)
  | Del (dataChange : rpc.DataRequest)
  | ConnClose
  | NewMonitorConnectionServer
  | ParseIP (s : String)
  | Reset
  deriving DecidableEq, Repr

/-- Calls that reach the dataplane agent: programming an interface, dialling the agent,
and the data-change requests and connection shutdown that follow a dial. -/
def Call.isDataplane {Conn Req : Type} : Call Conn Req → Bool
  | .CreateVppInterface _ _ => true
  | .Dial _ => true
  | .Put _ => true
  | .Del _ => true
  | .ConnClose => true
  | _ => false

/-- Calls to the monitor that register a connection. -/
def Call.isUpdate {Conn Req : Type} : Call Conn Req → Bool
  | .UpdateConnection _ => true
  | _ => false

/-- The collaborators of service.go.  The two helper methods and `Reset` have the receiver,
hence the whole world, at their disposal; the monitor's methods act on the monitor's own
state; the gRPC calls act on the agent's state. -/
structure Env (Conn Req Err Mon D : Type) where
  CompleteConnection : World Mon D → Req → (Option Conn × Option Err) × World Mon D
  CreateVppInterface : World Mon D → Option Conn → String → Option Err × World Mon D
  UpdateConnection : Mon → Option Conn → Mon
  DeleteConnection : Mon → Option Conn → Mon
  Dial : String → D → Option Err × D
  Put : rpc.DataRequest → D → Option Err × D
  Del : rpc.DataRequest → D → Option Err × D
  ConnClose : D → D
  Reset : World Mon D → World Mon D
  ParseIP : String → IP
  NetworkServiceName : String
  NewMonitorConnectionServer : Mon

/-- The result of running a method: returned values, world afterwards, calls issued. -/
structure Outcome (α Conn Req Mon D : Type) where
  ret : α
  world : World Mon D
  calls : List (Call Conn Req)
  deriving DecidableEq

/-- The receiver with its monitor replaced. -/
def World.withMonitor {Mon D : Type} (w : World Mon D) (m : Mon) : World Mon D :=
  { w with ns := { w.ns with monitorConnectionServer := m } }

/-- The world with the agent's state replaced. -/
def World.withAgent {Mon D : Type} (w : World Mon D) (d : D) : World Mon D :=
  { w with agent := d }

/-! ## service.go -/

namespace vppagentNetworkService

/-- The method `Request` (service.go, lines 43-57). -/
def Request {Conn Req Err Mon D : Type} (env : Env Conn Req Err Mon D) (w : World Mon D)
    (request : Req) :
    Outcome (Option Conn × Option Err) Conn Req Mon D :=
  match env.CompleteConnection w request with
  | ((_, some err), w1) =>
      ⟨(none, some err), w1, [Call.CompleteConnection request]⟩
  | ((nseConnection, none), w1) =>
      match env.CreateVppInterface w1 nseConnection w1.ns.baseDir with
      | (some err, w2) =>
          ⟨(none, some err), w2,
            [Call.CompleteConnection request,
             Call.CreateVppInterface nseConnection w1.ns.baseDir]⟩
      | (none, w2) =>
          ⟨(nseConnection, none),
            w2.withMonitor (env.UpdateConnection w2.ns.monitorConnectionServer nseConnection),
            [Call.CompleteConnection request,
             Call.CreateVppInterface nseConnection w1.ns.baseDir,
             Call.UpdateConnection nseConnection]⟩

/-- The method `Close` (service.go, lines 59-63). -/
def Close {Conn Req Err Mon D : Type} (env : Env Conn Req Err Mon D) (w : World Mon D) (conn : Option Conn) :
    Outcome (Option empty.Empty × Option Err) Conn Req Mon D :=
  ⟨(some {}, none),
    w.withMonitor (env.DeleteConnection w.ns.monitorConnectionServer conn),
    [Call.DeleteConnection conn]⟩

/-- The bridge-domain literal of `CreateBridgeDomain` (service.go, lines 74-82). -/
def bridgeDomain (bridgeDomainName : String) : l2.BridgeDomains_BridgeDomain :=
  { Name := bridgeDomainName
    Flood := true
    UnknownUnicastFlood := true
    Forward := false
    Learn := true
    ArpTermination := false
    MacAge := 0 }

/-- The value `bridgeDomains` of `CreateBridgeDomain` (service.go, lines 84-86). -/
def bridgeDomains (bridgeDomainName : String) : l2.BridgeDomains :=
  { BridgeDomains := [bridgeDomain bridgeDomainName] }

/-- The value `dataChange` of `CreateBridgeDomain` (service.go, lines 88-90). -/
def dataChange (bridgeDomainName : String) : rpc.DataRequest :=
  { BridgeDomains := (bridgeDomains bridgeDomainName).BridgeDomains }

/-- The method `CreateBridgeDomain` (service.go, lines 65-100).  The deferred `conn.Close()`
runs on both returns that follow a successful dial. -/
def CreateBridgeDomain {Conn Req Err Mon D : Type} (env : Env Conn Req Err Mon D)
    (w : World Mon D)
    (_vppAgentString : String) (bridgeDomainName : String) :
    Outcome (Option Err) Conn Req Mon D :=
  match env.Dial w.ns.vppAgentEndpoint w.agent with
  | (some err, d1) =>
      ⟨some err, w.withAgent d1, [Call.Dial w.ns.vppAgentEndpoint]⟩
  | (none, d1) =>
      match env.Put (dataChange bridgeDomainName) d1 with
      | (some err, d2) =>
          let d3 := (env.Del (dataChange bridgeDomainName) d2).2
          ⟨some err, w.withAgent (env.ConnClose d3),
            [Call.Dial w.ns.vppAgentEndpoint,
             Call.Put (dataChange bridgeDomainName),
             Call.Del (dataChange bridgeDomainName),
             Call.ConnClose]⟩
      | (none, d2) =>
          ⟨none, w.withAgent (env.ConnClose d2),
            [Call.Dial w.ns.vppAgentEndpoint,
             Call.Put (dataChange bridgeDomainName),
             Call.ConnClose]⟩

end vppagentNetworkService

/-- Conversion to `uint32`. -/
def uint32 (n : Nat) : Nat := n % 2 ^ 32

/-- The function `binary.BigEndian.Uint32`: it reads the first four bytes of the slice and
panics (`none`) on a slice shorter than four bytes. -/
def BigEndian.Uint32 : List byte → Option Nat
  | b0 :: b1 :: b2 :: b3 :: _ =>
      some (uint32 (uint32 b3.val ||| uint32 (uint32 b2.val <<< 8)
        ||| uint32 (uint32 b1.val <<< 16) ||| uint32 (uint32 b0.val <<< 24)))
  | _ => none

/-- The function `ip2int` (service.go, lines 102-110); `none` is a panic. -/
def ip2int (ip : IP) : Option Nat :=
  match ip with
  | none => some 0
  | some bs =>
      if bs.length = 16 then
        BigEndian.Uint32 ((bs.drop 12).take (16 - 12))
      else
        BigEndian.Uint32 bs

/-- The function `New` (service.go, lines 112-126), started against an agent in state
`agent`; `none` is a panic while the struct literal is evaluated.  The returned value is
the service `&service`, found in the outcome's world. -/
def New {Conn Req Err Mon D : Type} (env : Env Conn Req Err Mon D) (agent : D)
    (vppAgentEndpoint baseDir ip bridgeDomainName : String) :
    Option (Outcome Unit Conn Req Mon D) :=
  let monitor := env.NewMonitorConnectionServer
  let netIP := env.ParseIP ip
  match ip2int netIP with
  | none => none
  | some n =>
      let service : vppagentNetworkService Mon :=
        { networkService := env.NetworkServiceName
          nextIP := n
          monitorConnectionServer := monitor
          vppAgentEndpoint := vppAgentEndpoint
          baseDir := baseDir
          bridgeDomainName := bridgeDomainName }
      let w1 := env.Reset ⟨service, agent⟩
      let r := vppagentNetworkService.CreateBridgeDomain env w1 vppAgentEndpoint
        bridgeDomainName
      some ⟨(), r.world,
        [Call.NewMonitorConnectionServer, Call.ParseIP ip, Call.Reset] ++ r.calls⟩

/-- The struct literal of `New` for a base address of numeric value `n`. -/
def New.service {Conn Req Err Mon D : Type} (env : Env Conn Req Err Mon D)
    (vppAgentEndpoint baseDir bridgeDomainName : String) (n : Nat) :
    vppagentNetworkService Mon :=
  { networkService := env.NetworkServiceName
    nextIP := n
    monitorConnectionServer := env.NewMonitorConnectionServer
    vppAgentEndpoint := vppAgentEndpoint
    baseDir := baseDir
    bridgeDomainName := bridgeDomainName }

/-! ## The connection monitor -/

namespace monitor

/-- The kinds of `ConnectionEvent`. -/
inductive EventKind where
  | INITIAL
  | UPDATE
  | DELETE
  deriving DecidableEq, Repr

/-- An event streamed to subscribers: its kind and the connections it carries. -/
structure ConnectionEvent (Conn : Type) where
  kind : EventKind
  connections : List (Option Conn)
  deriving DecidableEq, Repr

/-- Modelled from the spec: the state of the connection monitor (package
`monitor_connection_server`, whose source is not among the files embedded here).  It is the
table "connections: mapping id -> Connection" together with the events emitted so far,
oldest first. -/
structure State (Conn : Type) where
  connections : List (String × Option Conn)
  events : List (ConnectionEvent Conn)
  deriving DecidableEq, Repr

/-- Whether the table has an entry for the id. -/
def State.has {Conn : Type} (m : State Conn) (id : String) : Bool :=
  m.connections.any (fun e => e.1 == id)

/-- Modelled from the spec: the monitor's `UpdateConnection`, the one registering method
service.go calls (the package's source is missing).  It writes the table entry of the
connection's id, as the spec's Add does for a new id and its Update for an existing one,
and "Emits an UPDATE event" that carries the one changed connection.  The method returns
nothing, so the spec's error results have no counterpart.  `GetId` reads a connection's
id. -/
def State.UpdateConnection {Conn : Type} (GetId : Option Conn → String) (m : State Conn)
    (conn : Option Conn) : State Conn :=
  { connections := (GetId conn, conn) :: m.connections.filter (fun e => e.1 != GetId conn)
    events := m.events ++ [⟨EventKind.UPDATE, [conn]⟩] }

/-- Modelled from the spec: the monitor's `DeleteConnection` (the package's source is
missing).  "Delete(id): removes; no-op (not an error) if id absent ... Emits DELETE": an
entry that is present is removed and a DELETE event carrying the connection is emitted; an
absent id leaves the monitor as it is. -/
def State.DeleteConnection {Conn : Type} (GetId : Option Conn → String) (m : State Conn)
    (conn : Option Conn) : State Conn :=
  if m.has (GetId conn) then
    { connections := m.connections.filter (fun e => e.1 != GetId conn)
      events := m.events ++ [⟨EventKind.DELETE, [conn]⟩] }
  else
    m

end monitor

/-- The environment `env` with the monitor of the spec in place of its monitor methods. -/
def Env.withSpecMonitor {Conn Req Err D : Type} (env : Env Conn Req Err (monitor.State Conn) D)
    (GetId : Option Conn → String) : Env Conn Req Err (monitor.State Conn) D :=
  { env with
    UpdateConnection := monitor.State.UpdateConnection GetId
    DeleteConnection := monitor.State.DeleteConnection GetId }

/-! ## A concrete environment

A small deterministic instance of the collaborators, used to evaluate the methods on
concrete inputs: connections, requests and errors are strings, the agent records the
interfaces and data requests it was given. -/

namespace demo

/-- The state of the concrete agent. -/
structure Agent where
  reachable : Bool
  acceptsPut : Bool
  interfaces : List String
  config : List rpc.DataRequest
  deriving DecidableEq, Repr

/-- The id of a connection: its name, and the empty string for nil. -/
def GetId : Option String → String
  | some c => c
  | none => ""

/-- The 16-byte IPv4-mapped form of the address a.b.c.d. -/
def mapped (a b c d : byte) : List byte :=
  [0, 0, 0, 0, 0, 0, 0, 0, 0, 0, 255, 255, a, b, c, d]

/-- The concrete collaborators: an empty request is refused by `CompleteConnection`, the
connection named "bad" is refused by `CreateVppInterface`. -/
def env : Env String String String (monitor.State String) Agent where
  CompleteConnection := fun w request =>
    if request = "" then ((none, some "no service name"), w)
    else ((some request, none), { w with ns := { w.ns with nextIP := uint32 (w.ns.nextIP + 1) } })
  CreateVppInterface := fun w conn _ =>
    if conn = some "bad" then (some "dataplane error", w)
    else (none, { w with agent := { w.agent with interfaces := GetId conn :: w.agent.interfaces } })
  UpdateConnection := monitor.State.UpdateConnection GetId
  DeleteConnection := monitor.State.DeleteConnection GetId
  Dial := fun _ d => if d.reachable then (none, d) else (some "unreachable", d)
  Put := fun dr d =>
    if d.acceptsPut then (none, { d with config := dr :: d.config }) else (some "rejected", d)
  Del := fun dr d => (none, { d with config := d.config.filter (fun x => x != dr) })
  ConnClose := fun d => d
  Reset := fun w => { w with agent := { w.agent with interfaces := [], config := [] } }
  ParseIP := fun s => if s = "10.0.0.1" then some (mapped 10 0 0 1) else none
  NetworkServiceName := "icmp-responder"
  NewMonitorConnectionServer := ⟨[], []⟩

/-- An agent that can be dialled and accepts requests. -/
def agent : Agent := ⟨true, true, [], []⟩

/-- An agent that can be dialled and rejects every Put. -/
def rejecting : Agent := ⟨true, false, [], []⟩

/-- A service world: base address 10.0.0.1, empty monitor, the accepting agent. -/
def world : World (monitor.State String) Agent :=
  { ns :=
      { networkService := "icmp-responder"
        nextIP := 167772161
        monitorConnectionServer := ⟨[], []⟩
        vppAgentEndpoint := "localhost:9112"
        baseDir := "/var/lib/networkservicemesh"
        bridgeDomainName := "bd-icmp" }
    agent := agent }

end demo

/-! ## Arithmetic of `ip2int` -/

/-- A value below `2 ^ 32` is its own `uint32`. -/
theorem uint32_of_lt {n : Nat} (h : n < 2 ^ 32) : uint32 n = n :=
  Nat.mod_eq_of_lt h

/-- Or-ing a low part with a part shifted past it adds the two. -/
theorem or_shiftLeft_of_lt {lo k : Nat} (hi : Nat) (h : lo < 2 ^ k) :
    lo ||| (hi <<< k) = hi * 2 ^ k + lo := by
  rw [Nat.shiftLeft_eq, Nat.or_comm, Nat.mul_comm, Nat.mul_add_lt_is_or h]

/-- The big-endian reading of four bytes. -/
theorem BigEndian.Uint32_four (a b c d : byte) (rest : List byte) :
    BigEndian.Uint32 (a :: b :: c :: d :: rest)
      = some (a.val * 2 ^ 24 + b.val * 2 ^ 16 + c.val * 2 ^ 8 + d.val) := by
  have ha := a.isLt
  have hb := b.isLt
  have hc := c.isLt
  have hd := d.isLt
  have h1 : d.val ||| (c.val <<< 8) = c.val * 2 ^ 8 + d.val :=
    or_shiftLeft_of_lt c.val (by omega)
  have h2 : (c.val * 2 ^ 8 + d.val) ||| (b.val <<< 16)
      = b.val * 2 ^ 16 + (c.val * 2 ^ 8 + d.val) :=
    or_shiftLeft_of_lt b.val (by omega)
  have h3 : (b.val * 2 ^ 16 + (c.val * 2 ^ 8 + d.val)) ||| (a.val <<< 24)
      = a.val * 2 ^ 24 + (b.val * 2 ^ 16 + (c.val * 2 ^ 8 + d.val)) :=
    or_shiftLeft_of_lt a.val (by omega)
  have e1 : uint32 d.val = d.val := uint32_of_lt (by omega)
  have e2 : uint32 c.val = c.val := uint32_of_lt (by omega)
  have e3 : uint32 b.val = b.val := uint32_of_lt (by omega)
  have e4 : uint32 a.val = a.val := uint32_of_lt (by omega)
  have s2 : uint32 (c.val <<< 8) = c.val <<< 8 :=
    uint32_of_lt (by rw [Nat.shiftLeft_eq]; omega)
  have s3 : uint32 (b.val <<< 16) = b.val <<< 16 :=
    uint32_of_lt (by rw [Nat.shiftLeft_eq]; omega)
  have s4 : uint32 (a.val <<< 24) = a.val <<< 24 :=
    uint32_of_lt (by rw [Nat.shiftLeft_eq]; omega)
  show some (uint32 (uint32 d.val ||| uint32 (uint32 c.val <<< 8)
    ||| uint32 (uint32 b.val <<< 16) ||| uint32 (uint32 a.val <<< 24))) = _
  rw [e1, e2, e3, e4, s2, s3, s4, h1, h2, h3]
  have hlt : a.val * 2 ^ 24 + (b.val * 2 ^ 16 + (c.val * 2 ^ 8 + d.val)) < 2 ^ 32 := by
    omega
  rw [uint32_of_lt hlt, ← Nat.add_assoc, ← Nat.add_assoc]

/-! ## The MEMIF vocabulary -/

/-- C7: the MEMIF vocabulary has the wire values Mechanism = "MEMIF", NetNsInodeKey =
"netnsInode", InterfaceNameKey = "name", SocketFilename = "socketfile", Workspace =
"workspace", Master = "master", Slave = "slave", and the six parameter keys and role
markers are pairwise distinct. -/
theorem memif_vocabulary :
    memif.Mechanism = "MEMIF" ∧ memif.NetNsInodeKey = "netnsInode" ∧
    memif.InterfaceNameKey = "name" ∧ memif.SocketFilename = "socketfile" ∧
    memif.Workspace = "workspace" ∧ memif.Master = "master" ∧ memif.Slave = "slave" ∧
    List.Pairwise (fun a b => a ≠ b)
      [memif.NetNsInodeKey, memif.InterfaceNameKey, memif.SocketFilename,
       memif.Workspace, memif.Master, memif.Slave] := by
  refine ⟨rfl, rfl, rfl, rfl, rfl, rfl, rfl, ?_⟩
  decide

/-! ## The base address -/

/-- The value `ip2int` gives a 4-byte address. -/
theorem ip2int_four (a b c d : byte) :
    ip2int (some [a, b, c, d])
      = some (a.val * 2 ^ 24 + b.val * 2 ^ 16 + c.val * 2 ^ 8 + d.val) := by
  have hlen : ¬ ([a, b, c, d] : List byte).length = 16 := by simp
  simp only [ip2int, hlen, if_false]
  exact BigEndian.Uint32_four a b c d []

/-- The value `ip2int` gives a 16-byte address: the number read from its last four
bytes. -/
theorem ip2int_sixteen (p : List byte) (hp : p.length = 12) (a b c d : byte) :
    ip2int (some (p ++ [a, b, c, d]))
      = some (a.val * 2 ^ 24 + b.val * 2 ^ 16 + c.val * 2 ^ 8 + d.val) := by
  have hlen : (p ++ [a, b, c, d]).length = 16 := by simp [hp]
  have hdrop : (p ++ [a, b, c, d]).drop 12 = [a, b, c, d] := by
    rw [← hp, List.drop_left]
  simp only [ip2int, hlen, if_true, hdrop]
  exact BigEndian.Uint32_four a b c d []

/-- The method `CreateBridgeDomain` leaves the receiver's fields as they are. -/
theorem CreateBridgeDomain_ns {Conn Req Err Mon D : Type} (env : Env Conn Req Err Mon D)
    (w : World Mon D) (s n : String) :
    (vppagentNetworkService.CreateBridgeDomain env w s n).world.ns = w.ns := by
  unfold vppagentNetworkService.CreateBridgeDomain
  split
  · rfl
  · split <;> rfl

/-- What `New` returns once `ip2int` has produced `n`. -/
theorem New_of_ip2int {Conn Req Err Mon D : Type} (env : Env Conn Req Err Mon D)
    (agent : D) (ep baseDir ip bd : String) (n : Nat)
    (h : ip2int (env.ParseIP ip) = some n) :
    ∃ o, New env agent ep baseDir ip bd = some o ∧
      o.world.ns = (env.Reset ⟨New.service env ep baseDir bd n, agent⟩).ns := by
  unfold New
  simp only [h]
  exact ⟨_, rfl, CreateBridgeDomain_ns env _ ep bd⟩

/-- C8: the starting counter New computes is the numeric value of the base address.  For
all bytes a, b, c, d, ip2int of the 4-byte address and of its 16-byte IPv4-mapped form both
equal a*2^24 + b*2^16 + c*2^8 + d, a value below 2^32; ip2int of the nil address is 0;
ip2int is injective on 4-byte addresses; and when ParseIP yields either form, New returns
the service that Reset leaves of the struct literal whose nextIP is that value, so nextIP
is that value whenever Reset does not write it. -/
theorem ip2int_base_address (a b c d : byte) :
    ip2int (some [a, b, c, d])
        = some (a.val * 2 ^ 24 + b.val * 2 ^ 16 + c.val * 2 ^ 8 + d.val) ∧
    ip2int (some [0, 0, 0, 0, 0, 0, 0, 0, 0, 0, 255, 255, a, b, c, d])
        = some (a.val * 2 ^ 24 + b.val * 2 ^ 16 + c.val * 2 ^ 8 + d.val) ∧
    a.val * 2 ^ 24 + b.val * 2 ^ 16 + c.val * 2 ^ 8 + d.val < 2 ^ 32 ∧
    ip2int none = some 0 ∧
    (∀ a1 b1 c1 d1 : byte, ip2int (some [a1, b1, c1, d1]) = ip2int (some [a, b, c, d]) →
      a1 = a ∧ b1 = b ∧ c1 = c ∧ d1 = d) ∧
    (∀ (Conn Req Err Mon D : Type) (env : Env Conn Req Err Mon D) (agent : D)
        (ep baseDir ip bd : String),
      (env.ParseIP ip = some [a, b, c, d] ∨
        env.ParseIP ip = some [0, 0, 0, 0, 0, 0, 0, 0, 0, 0, 255, 255, a, b, c, d]) →
      ∃ o, New env agent ep baseDir ip bd = some o ∧
        o.world.ns = (env.Reset ⟨New.service env ep baseDir bd
          (a.val * 2 ^ 24 + b.val * 2 ^ 16 + c.val * 2 ^ 8 + d.val), agent⟩).ns ∧
        ((∀ w, (env.Reset w).ns.nextIP = w.ns.nextIP) →
          o.world.ns.nextIP = a.val * 2 ^ 24 + b.val * 2 ^ 16 + c.val * 2 ^ 8 + d.val)) := by
  have h16 := ip2int_sixteen [0, 0, 0, 0, 0, 0, 0, 0, 0, 0, 255, 255] rfl a b c d
  have ha := a.isLt
  have hb := b.isLt
  have hc := c.isLt
  have hd := d.isLt
  refine ⟨ip2int_four a b c d, h16, by omega, rfl, ?_, ?_⟩
  · intro a1 b1 c1 d1 h
    rw [ip2int_four, ip2int_four, Option.some.injEq] at h
    have ha1 := a1.isLt
    have hb1 := b1.isLt
    have hc1 := c1.isLt
    have hd1 := d1.isLt
    refine ⟨Fin.ext ?_, Fin.ext ?_, Fin.ext ?_, Fin.ext ?_⟩ <;> omega
  · intro Conn Req Err Mon D env agent ep baseDir ip bd hparse
    have hval : ip2int (env.ParseIP ip)
        = some (a.val * 2 ^ 24 + b.val * 2 ^ 16 + c.val * 2 ^ 8 + d.val) := by
      rcases hparse with h | h
      · rw [h]; exact ip2int_four a b c d
      · rw [h]; exact h16
    obtain ⟨o, ho, hns⟩ := New_of_ip2int env agent ep baseDir ip bd _ hval
    refine ⟨o, ho, hns, ?_⟩
    intro hreset
    rw [hns, hreset]
    rfl

/-- C8 at 10.0.0.1: the counter of the service New builds is 167772161. -/
theorem ip2int_base_address_witness :
    ip2int (some [10, 0, 0, 1]) = some 167772161 ∧
    (∃ o, New demo.env demo.agent "localhost:9112" "/var/lib" "10.0.0.1" "bd-icmp" = some o ∧
      o.world.ns.nextIP = 167772161) := by
  have h := ip2int_base_address 10 0 0 1
  refine ⟨h.1, ?_⟩
  obtain ⟨o, ho, _, hnext⟩ := h.2.2.2.2.2 String String String (monitor.State String)
    demo.Agent demo.env demo.agent "localhost:9112" "/var/lib" "10.0.0.1" "bd-icmp"
    (Or.inr (by decide))
  exact ⟨o, ho, hnext (fun _ => rfl)⟩

/-! ## Request -/

/-- C1: when Request returns an error, the returned connection is nil; the error is the
one of the failing step (CompleteConnection, or CreateVppInterface after CompleteConnection
succeeded) and Request stops right there, the world being the one that step left; Request
issues no UpdateConnection call; and the monitor's state is the initial one whenever the
two helper methods do not write the monitor themselves. -/
theorem Request_error_leaves_monitor {Conn Req Err Mon D : Type}
    (env : Env Conn Req Err Mon D) (w : World Mon D) (request : Req) (err : Err)
    (h : (vppagentNetworkService.Request env w request).ret.2 = some err) :
    (vppagentNetworkService.Request env w request).ret.1 = none ∧
    (((env.CompleteConnection w request).1.2 = some err ∧
        (vppagentNetworkService.Request env w request).world
          = (env.CompleteConnection w request).2 ∧
        (vppagentNetworkService.Request env w request).calls
          = [Call.CompleteConnection request]) ∨
      ((env.CompleteConnection w request).1.2 = none ∧
        (env.CreateVppInterface (env.CompleteConnection w request).2
          (env.CompleteConnection w request).1.1
          (env.CompleteConnection w request).2.ns.baseDir).1 = some err ∧
        (vppagentNetworkService.Request env w request).world
          = (env.CreateVppInterface (env.CompleteConnection w request).2
              (env.CompleteConnection w request).1.1
              (env.CompleteConnection w request).2.ns.baseDir).2 ∧
        (vppagentNetworkService.Request env w request).calls
          = [Call.CompleteConnection request,
             Call.CreateVppInterface (env.CompleteConnection w request).1.1
               (env.CompleteConnection w request).2.ns.baseDir])) ∧
    (∀ c ∈ (vppagentNetworkService.Request env w request).calls, c.isUpdate = false) ∧
    ((∀ w0 r, (env.CompleteConnection w0 r).2.ns.monitorConnectionServer
          = w0.ns.monitorConnectionServer) →
      (∀ w0 c s, (env.CreateVppInterface w0 c s).2.ns.monitorConnectionServer
          = w0.ns.monitorConnectionServer) →
      (vppagentNetworkService.Request env w request).world.ns.monitorConnectionServer
        = w.ns.monitorConnectionServer) := by
  unfold vppagentNetworkService.Request at h ⊢
  rcases hc : env.CompleteConnection w request with ⟨⟨conn, e1⟩, w1⟩
  rw [hc] at h
  cases e1 with
  | some e =>
    simp only [Option.some.injEq] at h
    subst h
    refine ⟨rfl, Or.inl ⟨rfl, rfl, rfl⟩, ?_, ?_⟩
    · intro c hmem
      simp only [List.mem_singleton] at hmem
      subst hmem
      rfl
    · intro f1 _
      have := f1 w request
      rw [hc] at this
      exact this
  | none =>
    simp only at h ⊢
    rcases hv : env.CreateVppInterface w1 conn w1.ns.baseDir with ⟨e2, w2⟩
    rw [hv] at h
    cases e2 with
    | none => simp at h
    | some e =>
      simp only [Option.some.injEq] at h
      subst h
      refine ⟨rfl, Or.inr ⟨trivial, rfl, rfl, rfl⟩, ?_, ?_⟩
      · intro c hmem
        simp only [List.mem_cons, List.mem_singleton, List.not_mem_nil, or_false] at hmem
        rcases hmem with hmem | hmem <;> subst hmem <;> rfl
      · intro f1 f2
        have h1 := f1 w request
        have h2 := f2 w1 conn w1.ns.baseDir
        rw [hc] at h1
        rw [hv] at h2
        exact h2.trans h1

/-- C1 on the concrete environment: the request "bad" passes CompleteConnection and fails
in CreateVppInterface; Request returns nil and that error, and the monitor is untouched. -/
theorem Request_error_leaves_monitor_witness :
    (vppagentNetworkService.Request demo.env demo.world "bad").ret
        = (none, some "dataplane error") ∧
    (∀ c ∈ (vppagentNetworkService.Request demo.env demo.world "bad").calls,
        c.isUpdate = false) ∧
    (vppagentNetworkService.Request demo.env demo.world "bad").world.ns.monitorConnectionServer
        = demo.world.ns.monitorConnectionServer := by
  have h := Request_error_leaves_monitor demo.env demo.world "bad" "dataplane error"
    (by decide)
  refine ⟨by decide, h.2.2.1, h.2.2.2 ?_ ?_⟩
  · intro w0 r
    dsimp only [demo.env]
    split <;> rfl
  · intro w0 c s
    dsimp only [demo.env]
    split <;> rfl

/-- C2: when CompleteConnection and CreateVppInterface both succeed, Request returns the
connection CompleteConnection produced and a nil error; its calls are, in order,
CompleteConnection, CreateVppInterface on that connection, and one UpdateConnection on
that same connection; and the world is the one CreateVppInterface left, with the monitor
updated once by that connection. -/
theorem Request_success_registers_once {Conn Req Err Mon D : Type}
    (env : Env Conn Req Err Mon D) (w : World Mon D) (request : Req)
    (hcomplete : (env.CompleteConnection w request).1.2 = none)
    (hcreate : (env.CreateVppInterface (env.CompleteConnection w request).2
        (env.CompleteConnection w request).1.1
        (env.CompleteConnection w request).2.ns.baseDir).1 = none) :
    (vppagentNetworkService.Request env w request).ret
        = ((env.CompleteConnection w request).1.1, none) ∧
    (vppagentNetworkService.Request env w request).calls
        = [Call.CompleteConnection request,
           Call.CreateVppInterface (env.CompleteConnection w request).1.1
             (env.CompleteConnection w request).2.ns.baseDir,
           Call.UpdateConnection (env.CompleteConnection w request).1.1] ∧
    ((vppagentNetworkService.Request env w request).calls.filter Call.isUpdate).length = 1 ∧
    (vppagentNetworkService.Request env w request).world
        = (env.CreateVppInterface (env.CompleteConnection w request).2
            (env.CompleteConnection w request).1.1
            (env.CompleteConnection w request).2.ns.baseDir).2.withMonitor
          (env.UpdateConnection
            (env.CreateVppInterface (env.CompleteConnection w request).2
              (env.CompleteConnection w request).1.1
              (env.CompleteConnection w request).2.ns.baseDir).2.ns.monitorConnectionServer
            (env.CompleteConnection w request).1.1) := by
  unfold vppagentNetworkService.Request
  rcases hc : env.CompleteConnection w request with ⟨⟨conn, e1⟩, w1⟩
  rw [hc] at hcomplete hcreate
  simp only at hcomplete hcreate
  subst hcomplete
  simp only
  rcases hv : env.CreateVppInterface w1 conn w1.ns.baseDir with ⟨e2, w2⟩
  rw [hv] at hcreate
  simp only at hcreate
  subst hcreate
  exact ⟨rfl, rfl, rfl, rfl⟩

/-- C2 on the concrete environment: the request "icmp" succeeds, the connection "icmp" is
returned and the monitor holds it with one UPDATE event. -/
theorem Request_success_registers_once_witness :
    (vppagentNetworkService.Request demo.env demo.world "icmp").ret = (some "icmp", none) ∧
    (vppagentNetworkService.Request demo.env demo.world "icmp").calls
        = [Call.CompleteConnection "icmp",
           Call.CreateVppInterface (some "icmp") "/var/lib/networkservicemesh",
           Call.UpdateConnection (some "icmp")] ∧
    (vppagentNetworkService.Request demo.env demo.world "icmp").world.ns.monitorConnectionServer
        = ⟨[("icmp", some "icmp")], [⟨monitor.EventKind.UPDATE, [some "icmp"]⟩]⟩ := by
  have h := Request_success_registers_once demo.env demo.world "icmp" (by decide) (by decide)
  refine ⟨h.1, h.2.1, ?_⟩
  rw [h.2.2.2]
  decide

/-! ## Close -/

/-- C3: Close never fails.  For every environment, world and connection it returns an empty
acknowledgement and a nil error, and a second Close of the same connection, run on the
world the first one left, does so again. -/
theorem Close_never_fails {Conn Req Err Mon D : Type} (env : Env Conn Req Err Mon D)
    (w : World Mon D) (conn : Option Conn) :
    (vppagentNetworkService.Close env w conn).ret = (some {}, none) ∧
    (vppagentNetworkService.Close env
      (vppagentNetworkService.Close env w conn).world conn).ret = (some {}, none) :=
  ⟨rfl, rfl⟩

/-- In the monitor of the spec, deleting a connection right after it was registered emits
one DELETE event for it and removes its entry. -/
theorem monitor.delete_after_update {Conn : Type} (GetId : Option Conn → String)
    (m : monitor.State Conn) (conn : Option Conn) :
    (monitor.State.DeleteConnection GetId (monitor.State.UpdateConnection GetId m conn)
        conn).events
      = (monitor.State.UpdateConnection GetId m conn).events
          ++ [⟨monitor.EventKind.DELETE, [conn]⟩] ∧
    (monitor.State.DeleteConnection GetId (monitor.State.UpdateConnection GetId m conn)
        conn).has (GetId conn) = false := by
  have hhas : (monitor.State.UpdateConnection GetId m conn).has (GetId conn) = true := by
    simp [monitor.State.UpdateConnection, monitor.State.has]
  unfold monitor.State.DeleteConnection
  rw [if_pos hhas]
  refine ⟨rfl, ?_⟩
  simp [monitor.State.has]

/-- C4: for every connection, the calls of Close are exactly one DeleteConnection on that
connection, whatever the world (there is no dataplane outcome it could depend on), and the
world afterwards is the one before with the monitor's DeleteConnection applied once.  With
the monitor of the spec, a Close of the connection a successful Request returned makes the
monitor emit one DELETE event carrying that connection and drop its entry. -/
theorem Close_deletes_exactly_once {Conn Req Err Mon D : Type}
    (env : Env Conn Req Err Mon D) (w : World Mon D) (conn : Option Conn) :
    (vppagentNetworkService.Close env w conn).calls = [Call.DeleteConnection conn] ∧
    (vppagentNetworkService.Close env w conn).world
        = w.withMonitor (env.DeleteConnection w.ns.monitorConnectionServer conn) ∧
    (∀ (GetId : Option Conn → String) (menv : Env Conn Req Err (monitor.State Conn) D)
        (mw : World (monitor.State Conn) D) (request : Req),
      (vppagentNetworkService.Request (menv.withSpecMonitor GetId) mw request).ret.2 = none →
      (vppagentNetworkService.Close (menv.withSpecMonitor GetId)
          (vppagentNetworkService.Request (menv.withSpecMonitor GetId) mw request).world
          (vppagentNetworkService.Request (menv.withSpecMonitor GetId) mw request).ret.1
        ).world.ns.monitorConnectionServer.events
        = (vppagentNetworkService.Request (menv.withSpecMonitor GetId) mw request
            ).world.ns.monitorConnectionServer.events
          ++ [⟨monitor.EventKind.DELETE,
              [(vppagentNetworkService.Request (menv.withSpecMonitor GetId) mw request).ret.1]⟩] ∧
      (vppagentNetworkService.Close (menv.withSpecMonitor GetId)
          (vppagentNetworkService.Request (menv.withSpecMonitor GetId) mw request).world
          (vppagentNetworkService.Request (menv.withSpecMonitor GetId) mw request).ret.1
        ).world.ns.monitorConnectionServer.has
          (GetId (vppagentNetworkService.Request (menv.withSpecMonitor GetId) mw request).ret.1)
        = false) := by
  refine ⟨rfl, rfl, ?_⟩
  intro GetId menv mw request h
  unfold vppagentNetworkService.Request at h ⊢
  rcases hc : (menv.withSpecMonitor GetId).CompleteConnection mw request with ⟨⟨c, e1⟩, w1⟩
  rw [hc] at h
  cases e1 with
  | some e => simp at h
  | none =>
    simp only at h ⊢
    rcases hv : (menv.withSpecMonitor GetId).CreateVppInterface w1 c w1.ns.baseDir
      with ⟨e2, w2⟩
    rw [hv] at h
    cases e2 with
    | some e => simp at h
    | none =>
      exact monitor.delete_after_update GetId w2.ns.monitorConnectionServer c

/-- C4 on the concrete environment: after the request "icmp" succeeded, Close of its
connection leaves the monitor with an UPDATE followed by a DELETE of "icmp" and an empty
table. -/
theorem Close_deletes_exactly_once_witness :
    (vppagentNetworkService.Close demo.env
        (vppagentNetworkService.Request demo.env demo.world "icmp").world
        (some "icmp")).calls = [Call.DeleteConnection (some "icmp")] ∧
    (vppagentNetworkService.Close (demo.env.withSpecMonitor demo.GetId)
        (vppagentNetworkService.Request (demo.env.withSpecMonitor demo.GetId)
          demo.world "icmp").world
        (vppagentNetworkService.Request (demo.env.withSpecMonitor demo.GetId)
          demo.world "icmp").ret.1).world.ns.monitorConnectionServer.events
      = [⟨monitor.EventKind.UPDATE, [some "icmp"]⟩,
         ⟨monitor.EventKind.DELETE, [some "icmp"]⟩] := by
  refine ⟨(Close_deletes_exactly_once demo.env _ (some "icmp")).1, ?_⟩
  rw [((Close_deletes_exactly_once demo.env demo.world (some "icmp")).2.2
    demo.GetId demo.env demo.world "icmp" (by decide)).1]
  decide

/-- C5, as amended: Close makes no dataplane call.  For every world and connection,
present in the monitor or not, the calls of Close are the single call DeleteConnection on
that connection and nothing else, so none of them reaches the dataplane agent; the world
after Close is the one before with that one DeleteConnection applied to the monitor, and
the agent's state is the one before. -/
theorem Close_makes_no_dataplane_call {Conn Req Err Mon D : Type}
    (env : Env Conn Req Err Mon D) (w : World Mon D) (conn : Option Conn) :
    (vppagentNetworkService.Close env w conn).calls = [Call.DeleteConnection conn] ∧
    (∀ c ∈ (vppagentNetworkService.Close env w conn).calls, c.isDataplane = false) ∧
    (vppagentNetworkService.Close env w conn).world
        = w.withMonitor (env.DeleteConnection w.ns.monitorConnectionServer conn) ∧
    (vppagentNetworkService.Close env w conn).world.agent = w.agent := by
  refine ⟨rfl, ?_, rfl, rfl⟩
  intro c hmem
  have hc : c = Call.DeleteConnection conn := by
    simpa [vppagentNetworkService.Close] using hmem
  subst hc
  rfl

/-- C5 fails as stated: on the concrete environment the request "icmp" succeeds and its
connection is in the monitor's table, yet Close of that connection issues no dataplane
call at all, and the interface programmed for it is still on the agent. -/
theorem Close_teardown_counterexample :
    (vppagentNetworkService.Request demo.env demo.world "icmp").ret = (some "icmp", none) ∧
    (vppagentNetworkService.Request demo.env demo.world "icmp"
      ).world.ns.monitorConnectionServer.has "icmp" = true ∧
    (¬ ∃ c ∈ (vppagentNetworkService.Close demo.env
        (vppagentNetworkService.Request demo.env demo.world "icmp").world
        (some "icmp")).calls, c.isDataplane = true) ∧
    (vppagentNetworkService.Close demo.env
        (vppagentNetworkService.Request demo.env demo.world "icmp").world
        (some "icmp")).world.agent.interfaces = ["icmp"] := by
  decide

/-- C9: Close reclaims nothing.  For every world and connection, Close leaves nextIP,
networkService, vppAgentEndpoint, baseDir and bridgeDomainName as they were, and the world
after Close differs from the one before in the monitor only, the monitor being the only
collaborator Close calls. -/
theorem Close_frame {Conn Req Err Mon D : Type} (env : Env Conn Req Err Mon D)
    (w : World Mon D) (conn : Option Conn) :
    (vppagentNetworkService.Close env w conn).world.ns.nextIP = w.ns.nextIP ∧
    (vppagentNetworkService.Close env w conn).world.ns.networkService
        = w.ns.networkService ∧
    (vppagentNetworkService.Close env w conn).world.ns.vppAgentEndpoint
        = w.ns.vppAgentEndpoint ∧
    (vppagentNetworkService.Close env w conn).world.ns.baseDir = w.ns.baseDir ∧
    (vppagentNetworkService.Close env w conn).world.ns.bridgeDomainName
        = w.ns.bridgeDomainName ∧
    (vppagentNetworkService.Close env w conn).world.agent = w.agent ∧
    (∀ m, ((vppagentNetworkService.Close env w conn).world.withMonitor m)
        = w.withMonitor m) ∧
    (∀ c ∈ (vppagentNetworkService.Close env w conn).calls,
        c = Call.DeleteConnection conn) :=
  ⟨rfl, rfl, rfl, rfl, rfl, rfl, fun _ => rfl,
    fun _ hmem => by simpa [vppagentNetworkService.Close] using hmem⟩

/-! ## CreateBridgeDomain -/

/-- C6: once the agent is dialled, a rejected Put is followed by exactly one Del carrying
the same request and CreateBridgeDomain returns the error of the Put, whatever the Del
returns; an accepted Put is followed by no Del and CreateBridgeDomain returns nil. -/
theorem CreateBridgeDomain_compensates {Conn Req Err Mon D : Type}
    (env : Env Conn Req Err Mon D) (w : World Mon D) (vppAgentString name : String)
    (hdial : (env.Dial w.ns.vppAgentEndpoint w.agent).1 = none) :
    (∀ err,
      (env.Put (vppagentNetworkService.dataChange name)
          (env.Dial w.ns.vppAgentEndpoint w.agent).2).1 = some err →
      (vppagentNetworkService.CreateBridgeDomain env w vppAgentString name).ret = some err ∧
      (vppagentNetworkService.CreateBridgeDomain env w vppAgentString name).calls
        = [Call.Dial w.ns.vppAgentEndpoint,
           Call.Put (vppagentNetworkService.dataChange name),
           Call.Del (vppagentNetworkService.dataChange name),
           Call.ConnClose] ∧
      (vppagentNetworkService.CreateBridgeDomain env w vppAgentString name).world.agent
        = env.ConnClose (env.Del (vppagentNetworkService.dataChange name)
            (env.Put (vppagentNetworkService.dataChange name)
              (env.Dial w.ns.vppAgentEndpoint w.agent).2).2).2) ∧
    ((env.Put (vppagentNetworkService.dataChange name)
          (env.Dial w.ns.vppAgentEndpoint w.agent).2).1 = none →
      (vppagentNetworkService.CreateBridgeDomain env w vppAgentString name).ret = none ∧
      (vppagentNetworkService.CreateBridgeDomain env w vppAgentString name).calls
        = [Call.Dial w.ns.vppAgentEndpoint,
           Call.Put (vppagentNetworkService.dataChange name),
           Call.ConnClose] ∧
      (vppagentNetworkService.CreateBridgeDomain env w vppAgentString name).world.agent
        = env.ConnClose (env.Put (vppagentNetworkService.dataChange name)
            (env.Dial w.ns.vppAgentEndpoint w.agent).2).2) := by
  unfold vppagentNetworkService.CreateBridgeDomain
  rcases hd : env.Dial w.ns.vppAgentEndpoint w.agent with ⟨e0, d1⟩
  rw [hd] at hdial
  simp only at hdial
  subst hdial
  simp only
  rcases hp : env.Put (vppagentNetworkService.dataChange name) d1 with ⟨e1, d2⟩
  cases e1 with
  | some e =>
    refine ⟨?_, ?_⟩
    · intro err herr
      simp only [Option.some.injEq] at herr
      subst herr
      exact ⟨rfl, rfl, rfl⟩
    · intro hnone
      simp at hnone
  | none =>
    refine ⟨?_, ?_⟩
    · intro err herr
      simp at herr
    · intro _
      exact ⟨rfl, rfl, rfl⟩

/-- C6 on the concrete environment with an agent that rejects the Put: the error of the
Put is returned and one Del of the same request follows the Put. -/
theorem CreateBridgeDomain_compensates_witness :
    (vppagentNetworkService.CreateBridgeDomain demo.env
        { demo.world with agent := demo.rejecting } "localhost:9112" "bd-icmp").ret
      = some "rejected" ∧
    (vppagentNetworkService.CreateBridgeDomain demo.env
        { demo.world with agent := demo.rejecting } "localhost:9112" "bd-icmp").calls
      = [Call.Dial "localhost:9112",
         Call.Put (vppagentNetworkService.dataChange "bd-icmp"),
         Call.Del (vppagentNetworkService.dataChange "bd-icmp"),
         Call.ConnClose] := by
  have h := (CreateBridgeDomain_compensates demo.env
    { demo.world with agent := demo.rejecting } "localhost:9112" "bd-icmp" (by decide)).1
    "rejected" (by decide)
  exact ⟨h.1, h.2.1⟩

/-- C10: every request CreateBridgeDomain sends to the agent, in a Put or in a Del, holds
exactly one bridge domain, named by the bridgeDomainName argument, with Flood = true,
UnknownUnicastFlood = true, Forward = false, Learn = true, ArpTermination = false and
MacAge = 0; that request is sent in a Put whenever the dial succeeds; neither the
vppAgentString argument nor the service's networkService changes what is returned and
called; and the requests New sends carry the bridgeDomainName New was given. -/
theorem CreateBridgeDomain_request {Conn Req Err Mon D : Type}
    (env : Env Conn Req Err Mon D) (w : World Mon D) (vppAgentString name : String) :
    (∀ dr,
      (Call.Put dr ∈ (vppagentNetworkService.CreateBridgeDomain env w vppAgentString name).calls
        ∨ Call.Del dr ∈
          (vppagentNetworkService.CreateBridgeDomain env w vppAgentString name).calls) →
      dr = { BridgeDomains :=
              [{ Name := name, Flood := true, UnknownUnicastFlood := true, Forward := false,
                 Learn := true, ArpTermination := false, MacAge := 0 }] }) ∧
    ((env.Dial w.ns.vppAgentEndpoint w.agent).1 = none →
      Call.Put { BridgeDomains :=
              [{ Name := name, Flood := true, UnknownUnicastFlood := true, Forward := false,
                 Learn := true, ArpTermination := false, MacAge := 0 }] }
        ∈ (vppagentNetworkService.CreateBridgeDomain env w vppAgentString name).calls) ∧
    (∀ otherString otherService : String,
      (vppagentNetworkService.CreateBridgeDomain env
          { w with ns := { w.ns with networkService := otherService } } otherString name).ret
        = (vppagentNetworkService.CreateBridgeDomain env w vppAgentString name).ret ∧
      (vppagentNetworkService.CreateBridgeDomain env
          { w with ns := { w.ns with networkService := otherService } } otherString name).calls
        = (vppagentNetworkService.CreateBridgeDomain env w vppAgentString name).calls ∧
      (vppagentNetworkService.CreateBridgeDomain env
          { w with ns := { w.ns with networkService := otherService } } otherString
          name).world.agent
        = (vppagentNetworkService.CreateBridgeDomain env w vppAgentString name).world.agent) ∧
    (∀ (agent : D) (baseDir ip : String) (o : Outcome Unit Conn Req Mon D) (dr : rpc.DataRequest),
      New env agent vppAgentString baseDir ip name = some o →
      (Call.Put dr ∈ o.calls ∨ Call.Del dr ∈ o.calls) →
      dr = { BridgeDomains :=
              [{ Name := name, Flood := true, UnknownUnicastFlood := true, Forward := false,
                 Learn := true, ArpTermination := false, MacAge := 0 }] }) := by
  have key : ∀ (w0 : World Mon D) (s : String) (dr : rpc.DataRequest),
      (Call.Put dr ∈ (vppagentNetworkService.CreateBridgeDomain env w0 s name).calls
        ∨ Call.Del dr ∈ (vppagentNetworkService.CreateBridgeDomain env w0 s name).calls) →
      dr = vppagentNetworkService.dataChange name := by
    intro w0 s dr hmem
    unfold vppagentNetworkService.CreateBridgeDomain at hmem
    rcases hd : env.Dial w0.ns.vppAgentEndpoint w0.agent with ⟨e0, d1⟩
    rw [hd] at hmem
    cases e0 with
    | some e => simp at hmem
    | none =>
      simp only at hmem
      rcases hp : env.Put (vppagentNetworkService.dataChange name) d1 with ⟨e1, d2⟩
      rw [hp] at hmem
      cases e1 with
      | some e => simpa using hmem
      | none => simpa using hmem
  refine ⟨fun dr h => key w vppAgentString dr h, ?_, ?_, ?_⟩
  · intro hdial
    unfold vppagentNetworkService.CreateBridgeDomain
    rcases hd : env.Dial w.ns.vppAgentEndpoint w.agent with ⟨e0, d1⟩
    rw [hd] at hdial
    simp only at hdial
    subst hdial
    simp only
    rcases hp : env.Put (vppagentNetworkService.dataChange name) d1 with ⟨e1, d2⟩
    cases e1 with
    | some e => exact List.mem_cons_of_mem _ (List.mem_cons_self _ _)
    | none => exact List.mem_cons_of_mem _ (List.mem_cons_self _ _)
  · intro otherString otherService
    unfold vppagentNetworkService.CreateBridgeDomain
    simp only
    rcases hd : env.Dial w.ns.vppAgentEndpoint w.agent with ⟨e0, d1⟩
    cases e0 with
    | some e => exact ⟨rfl, rfl, rfl⟩
    | none =>
      simp only
      rcases hp : env.Put (vppagentNetworkService.dataChange name) d1 with ⟨e1, d2⟩
      cases e1 with
      | some e => exact ⟨rfl, rfl, rfl⟩
      | none => exact ⟨rfl, rfl, rfl⟩
  · intro agent baseDir ip o dr hnew hmem
    unfold New at hnew
    cases hn : ip2int (env.ParseIP ip) with
    | none => simp [hn] at hnew
    | some n =>
      simp only [hn, Option.some.injEq] at hnew
      subst hnew
      simp only [List.mem_append, List.mem_cons, List.not_mem_nil, or_false, false_or,
        reduceCtorEq] at hmem
      exact key _ _ dr hmem

/-- C10 on the concrete environment: New, given the bridge-domain name "bd-icmp", sends
one Put whose request is the single bridge domain "bd-icmp" with the fixed settings. -/
theorem CreateBridgeDomain_request_witness :
    (New demo.env demo.agent "localhost:9112" "/var/lib" "10.0.0.1" "bd-icmp").map
        (fun o => o.calls)
      = some [Call.NewMonitorConnectionServer, Call.ParseIP "10.0.0.1", Call.Reset,
          Call.Dial "localhost:9112",
          Call.Put { BridgeDomains :=
            [{ Name := "bd-icmp", Flood := true, UnknownUnicastFlood := true,
               Forward := false, Learn := true, ArpTermination := false, MacAge := 0 }] },
          Call.ConnClose] ∧
    Call.Put { BridgeDomains :=
            [{ Name := "bd-icmp", Flood := true, UnknownUnicastFlood := true,
               Forward := false, Learn := true, ArpTermination := false, MacAge := 0 }] }
      ∈ (vppagentNetworkService.CreateBridgeDomain demo.env demo.world "ignored"
          "bd-icmp").calls :=
  ⟨by decide,
    (CreateBridgeDomain_request demo.env demo.world "ignored" "bd-icmp").2.1 (by decide)⟩
